import Mathlib

/-!
Verification of the tokenizer class-resolution registry
(`paddlenlp/transformers/auto/tokenizer.py`).

The module resolves a model identifier to a concrete tokenizer class via
three strategies (built-in name shortcut, saved tokenizer-config lookup,
model-config fallback) and offers a `register` operation for runtime
registration of (config-class, tokenizer-class pair) entries.

Shallow embedding conventions:
- Tokenizer classes are identified by their names (strings); module imports,
  which always yield the class carrying the looked-up name when the name is
  present in the static table, are modelled as returning that name.
- External collaborators (the file-resolution collaborator behind
  `resolve_file_path`, `AutoConfig.from_pretrained`,
  `config_class_to_model_type`, and the lazy `TOKENIZER_MAPPING`) are fields
  of an environment record `Env`; the functions under verification are
  parametric in them.
- The tokenizer-config JSON is modelled as an association list of
  string keys to string values (the only keys the resolver consumes map
  class names, which are strings, to strings).
- Raised exceptions become constructors of `ResolveResult` or `RegError`.
-/

/-- Entry of the static architecture table `TOKENIZER_MAPPING_NAMES`: the
reference (slow) slot is a single class name or a tuple of names. -/
inductive SlowNames where
  | one (n : String)
  | many (ns : List String)
deriving DecidableEq, Repr

/-- Value of the static architecture table: either a bare class name, or a
pair of a reference slot and an optional accelerated (fast) class name. -/
inductive TokEntry where
  | single (n : String)
  | pair (slow : SlowNames) (fast : Option String)
deriving DecidableEq, Repr

/-- Embeds the flattening in `get_mapping_tokenizers(tokenizers)`: slow
names first (a bare name or the tuple of names), the fast name appended. -/
def SlowNames.toNameList : SlowNames → List String
  | .one n => [n]
  | .many ns => ns

/-- Embeds `get_mapping_tokenizers(tokenizers, with_fast)` from the source:
returns the list of all class names an architecture-table entry declares. -/
def get_mapping_tokenizers (e : TokEntry) (with_fast : Bool) : List String :=
  match e with
  | .single n => [n]
  | .pair slow fast =>
    slow.toNameList ++ (if with_fast then fast.toList else [])

/-- Transcription of the static table `TOKENIZER_MAPPING_NAMES`,
parametrised by the result of `is_tokenizers_available()` (which decides
whether the accelerated entries are present or `None`). -/
def TOKENIZER_MAPPING_NAMES (tokenizersAvailable : Bool) :
    List (String × TokEntry) :=
  [ ("albert", .pair (.many ["AlbertChineseTokenizer", "AlbertEnglishTokenizer"]) none),
    ("bart", .single "BartTokenizer"),
    ("bert", .pair (.one "BertTokenizer")
      (if tokenizersAvailable then some "BertTokenizerFast" else none)),
    ("blenderbot", .single "BlenderbotTokenizer"),
    ("bloom", .pair (.one "BloomTokenizer")
      (if tokenizersAvailable then some "BloomTokenizerFast" else none)),
    ("clip", .single "CLIPTokenizer"),
    ("codegen", .single "CodeGenTokenizer"),
    ("convbert", .single "ConvBertTokenizer"),
    ("ctrl", .single "CTRLTokenizer"),
    ("distilbert", .single "DistilBertTokenizer"),
    ("electra", .single "ElectraTokenizer"),
    ("ernie", .single "ErnieTokenizer"),
    ("ernie_m", .single "ErnieMTokenizer"),
    ("fnet", .single "FNetTokenizer"),
    ("funnel", .single "FunnelTokenizer"),
    ("gemma", .single "GemmaTokenizer"),
    ("jamba", .single "JambaTokenizer"),
    ("layoutlm", .single "LayoutLMTokenizer"),
    ("layoutlmv2", .single "LayoutLMv2Tokenizer"),
    ("layoutxlm", .single "LayoutXLMTokenizer"),
    ("llama", .pair (.many ["LlamaTokenizer", "Llama3Tokenizer"])
      (if tokenizersAvailable then some "LlamaTokenizerFast" else none)),
    ("luke", .single "LukeTokenizer"),
    ("mamba", .single "MambaTokenizer"),
    ("mbart", .pair (.many ["MBartTokenizer", "MBart50Tokenizer"]) none),
    ("mobilebert", .single "MobileBertTokenizer"),
    ("mpnet", .single "MPNetTokenizer"),
    ("nezha", .single "NeZhaTokenizer"),
    ("pegasus", .single "PegasusChineseTokenizer"),
    ("prophetnet", .single "ProphetNetTokenizer"),
    ("reformer", .single "ReformerTokenizer"),
    ("rembert", .single "RemBertTokenizer"),
    ("roberta", .single "RobertaBPETokenizer"),
    ("roformer", .single "RoFormerTokenizer"),
    ("speecht5", .single "SpeechT5Tokenizer"),
    ("squeezebert", .single "SqueezeBertTokenizer"),
    ("t5", .single "T5Tokenizer"),
    ("xlm", .single "XLMTokenizer"),
    ("xlnet", .single "XLNetTokenizer"),
    ("bert_japanese", .single "BertJapaneseTokenizer"),
    ("bigbird", .single "BigBirdTokenizer"),
    ("blenderbot_small", .single "BlenderbotSmallTokenizer"),
    ("chatglm", .single "ChatGLMTokenizer"),
    ("chatglm_v2", .single "ChatGLMv2Tokenizer"),
    ("chinesebert", .single "ChineseBertTokenizer"),
    ("dallebart", .single "DalleBartTokenizer"),
    ("ernie_ctm", .single "ErnieCtmTokenizer"),
    ("ernie_doc", .single "ErnieDocBPETokenizer"),
    ("ernie_gram", .single "ErnieGramTokenizer"),
    ("ernie_layout", .single "ErnieLayoutTokenizer"),
    ("ernie_code", .single "ErnieCodeTokenizer"),
    ("megatronbert", .single "MegatronBertTokenizer"),
    ("nystromformer", .single "NystromformerTokenizer"),
    ("ppminilm", .single "PPMiniLMTokenizer"),
    ("roformerv2", .single "RoFormerv2Tokenizer"),
    ("skep", .single "SkepTokenizer"),
    ("tinybert", .single "TinyBertTokenizer"),
    ("unified_transformer", .single "UnifiedTransformerTokenizer"),
    ("unimo", .single "UNIMOTokenizer"),
    ("gpt", .pair (.many ["GPTTokenizer", "GPTChineseTokenizer"]) none),
    ("gau_alpha", .single "GAUAlphaTokenizer"),
    ("artist", .single "ArtistTokenizer"),
    ("chineseclip", .single "ChineseCLIPTokenizer"),
    ("ernie_vil", .single "ErnieViLTokenizer"),
    ("glm", .single "GLMGPT2Tokenizer"),
    ("qwen", .single "QWenTokenizer"),
    ("qwen2", .pair (.one "Qwen2Tokenizer")
      (if tokenizersAvailable then some "Qwen2TokenizerFast" else none)),
    ("yuan", .single "YuanTokenizer") ]

/-- Python `x in ys` over a list of strings. -/
def memStr (x : String) : List String → Bool
  | [] => false
  | y :: ys => if y = x then true else memStr x ys

/-- Python `d.get(key)` over an association list (a JSON object or the
extra-content registry keyed by strings). -/
def dictGet {α : Type} (key : String) : List (String × α) → Option α
  | [] => none
  | (k, v) :: rest => if k = key then some v else dictGet key rest

/-- Embeds `tokenizer_class_from_name(class_name)`: the special case for
`PretrainedTokenizerFast`, then the scan of the static architecture table
(fast names included), then the scan of the extra content registered at
runtime, then the main-module attribute lookup, else `None`. A name found
in the table is resolved by importing its module and reading the attribute
of that name, which yields the class carrying that very name. -/
def tokenizer_class_from_name (table : List (String × TokEntry))
    (extraNames mainModule : List String) (class_name : String) :
    Option String :=
  if class_name = "PretrainedTokenizerFast" then some class_name
  else if table.any (fun p => memStr class_name (get_mapping_tokenizers p.2 true)) then
    some class_name
  else if memStr class_name extraNames then some class_name
  else if memStr class_name mainModule then some class_name
  else none

/-- Embeds `get_tokenizer_config(...)`: the argument is the result of the
external file-resolution collaborator `resolve_file_path` (already parsed
JSON when the file exists); when the file is absent the function returns an
empty mapping. -/
def get_tokenizer_config (resolved : Option (List (String × String))) :
    List (String × String) :=
  match resolved with
  | none => []
  | some kvs => kvs

/-- Model configuration object, as used by the resolver: its dynamic type
name (`type(config).__name__`) and its `tokenizer_class` field. -/
structure PretrainedConfig where
  typeName : String
  tokenizer_class : Option String
deriving DecidableEq, Repr

/-- Reference slot of a `TOKENIZER_MAPPING` value after destructuring: a
single class or a nonempty tuple of candidate classes. -/
inductive PyTok where
  | one (c : String)
  | many (c : String) (cs : List String)
deriving DecidableEq, Repr

/-- Value returned by `TOKENIZER_MAPPING[type(config)]`: either a bare
class (then the fast slot is taken to be `None`) or a (reference, fast)
pair, each slot possibly absent. -/
inductive MappedTok where
  | single (c : String)
  | pair (py : Option PyTok) (fast : Option String)
deriving DecidableEq, Repr

/-- Outcome of `AutoTokenizer.from_pretrained`: the resolved class whose
`from_pretrained` factory receives the delegated construction (`okFirst`
marks the choice of the first candidate out of a tuple, printed by the
source), or one of the raised errors. -/
inductive ResolveResult where
  | ok (cls : String)
  | okFirst (cls : String)
  | errNotImplemented
  | errUnresolvedClass (candidate : String)
  | errMissingDependency
  | errCannotLoad (identifier : String)
deriving DecidableEq, Repr

/-- Environment of external collaborators and module-level registry state
the resolver reads. -/
structure Env where
  /-- `cls._tokenizer_mapping`: list of (declared pretrained identifiers,
  owning class name) pairs, in table order. -/
  initConfigMapping : List (List String × String)
  /-- The static architecture table. -/
  table : List (String × TokEntry)
  /-- Names of tokenizer classes in `TOKENIZER_MAPPING._extra_content`. -/
  extraNames : List String
  /-- Names available as attributes of the main module. -/
  mainModule : List String
  /-- File-resolution collaborator: identifier to parsed tokenizer-config
  JSON, `none` when the config file is absent. -/
  resolveFile : String → Option (List (String × String))
  /-- `AutoConfig.from_pretrained` collaborator. -/
  autoConfig : String → PretrainedConfig
  /-- `config_class_to_model_type` applied to a configuration type name. -/
  configToModelType : String → Option String
  /-- `TOKENIZER_MAPPING[type(config)]`, keyed by configuration type name. -/
  tokenizerMapping : String → MappedTok

/-- Flattening `all_tokenizer_names` of the identifier lists declared in
`cls._tokenizer_mapping`, in iteration order. -/
def allTokenizerNames : List (List String × String) → List String
  | [] => []
  | (names, _) :: rest => names ++ allTokenizerNames rest

/-- The built-in shortcut loop of `from_pretrained` (the nested `for` over
`cls._tokenizer_mapping.items()`): the owning class of the first identifier
list containing the identifier. -/
def lookupBuiltin (id : String) : List (List String × String) → Option String
  | [] => none
  | (names, cls) :: rest =>
    if memStr id names then some cls else lookupBuiltin id rest

/-- Python `s.endswith(p)`, computed on the character lists. -/
def strEndsWith (s p : String) : Bool :=
  if p.data.length ≤ s.data.length then
    s.data.drop (s.data.length - p.data.length) == p.data
  else false

/-- Embeds the accelerated/declared lookup of `from_pretrained` (the block
guarded by `config_tokenizer_class is not None`): with `use_fast` and a
declared name not already ending in `Fast`, first try `<declared>Fast`;
fall back to the declared name; if both lookups fail, raise naming the
last-attempted candidate (the declared name). -/
def resolve_declared_class (env : Env) (config_tokenizer_class : String)
    (use_fast : Bool) : ResolveResult :=
  let fastAttempt : Option String :=
    if use_fast && !(strEndsWith config_tokenizer_class "Fast") then
      tokenizer_class_from_name env.table env.extraNames env.mainModule
        (config_tokenizer_class ++ "Fast")
    else none
  match fastAttempt with
  | some cls => .ok cls
  | none =>
    match tokenizer_class_from_name env.table env.extraNames env.mainModule
        config_tokenizer_class with
    | some cls => .ok cls
    | none => .errUnresolvedClass config_tokenizer_class

/-- Embeds the reference-slot branch of the model-config fallback: a single
class is returned directly; for a tuple the first candidate is returned
(the source prints the choice); an absent reference slot raises the
missing-optional-dependency error. -/
def pick_reference_tokenizer : Option PyTok → ResolveResult
  | some (.one cls) => .ok cls
  | some (.many cls _) => .okFirst cls
  | none => .errMissingDependency

/-- Embeds the selection over `TOKENIZER_MAPPING[type(config)]` (the block
guarded by `model_type is not None`): destructure into (reference, fast);
use the fast class when it is present and (`use_fast` or the reference slot
is absent); otherwise pick from the reference slot. -/
def select_mapped_tokenizer (m : MappedTok) (use_fast : Bool) :
    ResolveResult :=
  match m with
  | .single cls => pick_reference_tokenizer (some (.one cls))
  | .pair py fast =>
    match fast with
    | some f =>
      if use_fast || py.isNone then .ok f else pick_reference_tokenizer py
    | none => pick_reference_tokenizer py

/-- Embeds `from_pretrained` from the saved-config strategy on: read the
tokenizer config via the file-resolution collaborator, take its
`tokenizer_class` key, fall back to the model configuration's
`tokenizer_class` (resolving the configuration when none was passed), and
finally to the architecture-family selection; raise the cannot-load error
when even the family key cannot be derived. -/
def resolve_after_builtin (env : Env) (pretrained_model_name_or_path : String)
    (use_fast : Bool) (config : Option PretrainedConfig) : ResolveResult :=
  let tokenizer_config :=
    get_tokenizer_config (env.resolveFile pretrained_model_name_or_path)
  match dictGet "tokenizer_class" tokenizer_config with
  | some config_tokenizer_class =>
    resolve_declared_class env config_tokenizer_class use_fast
  | none =>
    let cfg :=
      match config with
      | some c => c
      | none => env.autoConfig pretrained_model_name_or_path
    match cfg.tokenizer_class with
    | some config_tokenizer_class =>
      resolve_declared_class env config_tokenizer_class use_fast
    | none =>
      match env.configToModelType cfg.typeName with
      | some _ => select_mapped_tokenizer (env.tokenizerMapping cfg.typeName) use_fast
      | none => .errCannotLoad pretrained_model_name_or_path

/-- Embeds `AutoTokenizer.from_pretrained`: the `tokenizer_type` guard, the
built-in name shortcut, then the remaining strategies. -/
def AutoTokenizer.from_pretrained (env : Env)
    (pretrained_model_name_or_path : String) (use_fast : Bool)
    (tokenizer_type : Option String) (config : Option PretrainedConfig) :
    ResolveResult :=
  if tokenizer_type.isSome then .errNotImplemented
  else if memStr pretrained_model_name_or_path
      (allTokenizerNames env.initConfigMapping) then
    match lookupBuiltin pretrained_model_name_or_path env.initConfigMapping with
    | some cls => .ok cls
    | none =>
      resolve_after_builtin env pretrained_model_name_or_path use_fast config
  else resolve_after_builtin env pretrained_model_name_or_path use_fast config

/-- Embeds the declared-name extraction of
`AutoTokenizer._get_tokenizer_class_from_config`: `init_class` is read
first, and only when it is absent does the helper fall back to
`tokenizer_class`. -/
def declared_class_from_config (init_kwargs : List (String × String)) :
    Option String :=
  match dictGet "init_class" init_kwargs with
  | some c => some c
  | none => dictGet "tokenizer_class" init_kwargs

/-- Line of the cannot-load message naming the built-in identifier form. -/
def cannotLoadLine1 : String :=
  "- a correct model-identifier of built-in pretrained models,\n"

/-- Line of the cannot-load message naming the community identifier
form. -/
def cannotLoadLine2 : String :=
  "- or a correct model-identifier of community-contributed pretrained models,\n"

/-- Line of the cannot-load message naming the local-directory form. -/
def cannotLoadLine3 : String :=
  "- or the correct path to a directory containing relevant tokenizer files.\n"

/-- Error message of the terminal cannot-load failure of
`from_pretrained`, with the three accepted identifier forms. -/
def cannotLoadMessage (identifier : String) : String :=
  "Can\x27t load tokenizer for \x27" ++ identifier ++ "\x27.\n" ++
  "Please make sure that \x27" ++ identifier ++ "\x27 is:\n" ++
  cannotLoadLine1 ++ cannotLoadLine2 ++ cannotLoadLine3

/-- Tokenizer class as supplied to `register`: its name, its capability
tags (`issubclass(-, PretrainedTokenizerFast)` and
`issubclass(-, PretrainedTokenizer)`), and its declared
`slow_tokenizer_class` companion, by name. -/
structure RegClass where
  name : String
  isFastSubclass : Bool
  isSlowSubclass : Bool
  slow_tokenizer_class : Option String
deriving DecidableEq, Repr

/-- Errors `register` raises. -/
inductive RegError where
  | needOneClass
  | fastInSlowSlot
  | slowInFastSlot
  | inconsistentCompanion
deriving DecidableEq, Repr

/-- Embeds `AutoTokenizer.register` up to, and including, the construction
of the merged entry handed to the external `TOKENIZER_MAPPING.register`:
the validations in source order, then the carry-over of unsupplied slots
from an entry already present in `TOKENIZER_MAPPING._extra_content`. The
result is the merged (reference, fast) pair. -/
def AutoTokenizer.register
    (extra : List (String × (Option RegClass × Option RegClass)))
    (config_class : String)
    (slow_tokenizer_class fast_tokenizer_class : Option RegClass) :
    Except RegError (Option RegClass × Option RegClass) :=
  if slow_tokenizer_class.isNone && fast_tokenizer_class.isNone then
    .error .needOneClass
  else if (match slow_tokenizer_class with
           | some s => s.isFastSubclass
           | none => false) then
    .error .fastInSlowSlot
  else if (match fast_tokenizer_class with
           | some f => f.isSlowSubclass
           | none => false) then
    .error .slowInFastSlot
  else if (match slow_tokenizer_class, fast_tokenizer_class with
           | some s, some f =>
             f.isFastSubclass && (f.slow_tokenizer_class != some s.name)
           | _, _ => false) then
    .error .inconsistentCompanion
  else
    match dictGet config_class extra with
    | some (existing_slow, existing_fast) =>
      .ok
        ((match slow_tokenizer_class with
          | some s => some s
          | none => existing_slow),
         (match fast_tokenizer_class with
          | some f => some f
          | none => existing_fast))
    | none => .ok (slow_tokenizer_class, fast_tokenizer_class)

/-! Helper lemmas shared by several claims. -/

theorem memStr_append (x : String) (a b : List String) :
    memStr x (a ++ b) = (memStr x a || memStr x b) := by
  induction a with
  | nil => simp [memStr]
  | cons y ys ih =>
    by_cases h : y = x <;> simp [memStr, h, ih]

theorem lookupBuiltin_isSome_of_memStr (id : String)
    (m : List (List String × String))
    (h : memStr id (allTokenizerNames m) = true) :
    ∃ cls, lookupBuiltin id m = some cls := by
  induction m with
  | nil => simp [allTokenizerNames, memStr] at h
  | cons p rest ih =>
    obtain ⟨names, cls⟩ := p
    rw [allTokenizerNames, memStr_append] at h
    by_cases hn : memStr id names = true
    · exact ⟨cls, by simp [lookupBuiltin, hn]⟩
    · simp [hn] at h
      obtain ⟨c, hc⟩ := ih h
      exact ⟨c, by simp [lookupBuiltin, hn, hc]⟩

theorem memStr_of_lookupBuiltin (id cls : String)
    (m : List (List String × String))
    (h : lookupBuiltin id m = some cls) :
    memStr id (allTokenizerNames m) = true := by
  induction m with
  | nil => simp [lookupBuiltin] at h
  | cons p rest ih =>
    obtain ⟨names, c⟩ := p
    rw [allTokenizerNames, memStr_append]
    by_cases hn : memStr id names = true
    · simp [hn]
    · rw [lookupBuiltin] at h
      simp [hn] at h ⊢
      exact ih h

/-- Concrete environment used to evaluate the resolver on closed inputs:
the real static table (with the accelerated entries available) and a small
built-in identifier mapping. -/
def demoEnv : Env where
  initConfigMapping :=
    [(["bert-base-uncased", "bert-large-uncased"], "BertTokenizer"),
     (["ernie-1.0"], "ErnieTokenizer")]
  table := TOKENIZER_MAPPING_NAMES true
  extraNames := []
  mainModule := []
  resolveFile := fun _ => none
  autoConfig := fun _ => ⟨"PretrainedConfig", none⟩
  configToModelType := fun _ => none
  tokenizerMapping := fun _ => .pair none none

/-- C1: for an identifier exactly equal to one of the pretrained
identifiers declared by a registered tokenizer class, `from_pretrained`
selects that owning class (and delegates construction to it), and the
result is identical under every file-resolution collaborator — the
tokenizer-config file is never read on this path. -/
theorem C1_builtin_shortcut_skips_config (env : Env)
    (fetch : String → Option (List (String × String)))
    (id cls : String) (uf : Bool) (c : Option PretrainedConfig)
    (h : lookupBuiltin id env.initConfigMapping = some cls) :
    AutoTokenizer.from_pretrained env id uf none c = .ok cls ∧
    AutoTokenizer.from_pretrained { env with resolveFile := fetch }
      id uf none c = .ok cls := by
  have hm := memStr_of_lookupBuiltin id cls env.initConfigMapping h
  constructor <;> simp [AutoTokenizer.from_pretrained, hm, h]

/-- Witness for C1 at a concrete built-in identifier; the second
collaborator declares a conflicting config, which is ignored. -/
theorem C1_builtin_shortcut_skips_config_witness :
    AutoTokenizer.from_pretrained demoEnv "bert-base-uncased"
      false none none = .ok "BertTokenizer" ∧
    AutoTokenizer.from_pretrained
      { demoEnv with resolveFile := fun _ => some [("tokenizer_class", "ErnieTokenizer")] }
      "bert-base-uncased" false none none = .ok "BertTokenizer" :=
  C1_builtin_shortcut_skips_config demoEnv
    (fun _ => some [("tokenizer_class", "ErnieTokenizer")])
    "bert-base-uncased" "BertTokenizer" false none (by decide)

/-- C10: a non-None `tokenizer_type` raises the not-implemented error
before any resolution strategy runs; the result holds for every
environment, so no registry state or collaborator is consulted or
changed. -/
theorem C10_tokenizer_type_not_implemented (env : Env) (id : String)
    (uf : Bool) (t : String) (c : Option PretrainedConfig) :
    AutoTokenizer.from_pretrained env id uf (some t) c =
      .errNotImplemented := by
  simp [AutoTokenizer.from_pretrained]

/-- Tokenizer config with both declared-name keys present, naming
different registered classes. -/
def c2Config : List (String × String) :=
  [("init_class", "ErnieTokenizer"), ("tokenizer_class", "BertTokenizer")]

/-- Environment whose file-resolution collaborator yields `c2Config` and
with no built-in identifier declared. -/
def c2Env : Env :=
  { demoEnv with
    initConfigMapping := []
    resolveFile := fun _ => some c2Config }

/-- C2 counterexample: on a saved tokenizer config containing both
`init_class` and `tokenizer_class`, `from_pretrained` resolves the class
named by `tokenizer_class` — not the one named by `init_class`, although
that name is itself registered and resolvable. -/
theorem C2_counterexample_tokenizer_class_wins :
    dictGet "init_class" c2Config = some "ErnieTokenizer" ∧
    dictGet "tokenizer_class" c2Config = some "BertTokenizer" ∧
    AutoTokenizer.from_pretrained c2Env "my-community-model" false none none =
      .ok "BertTokenizer" ∧
    ResolveResult.ok "BertTokenizer" ≠ ResolveResult.ok "ErnieTokenizer" :=
  ⟨by decide, by decide, by decide, by decide⟩

/-- C2 amended: the saved-config path of `from_pretrained` consults only
the `tokenizer_class` key and resolves the class it names, ignoring
`init_class`; the `init_class`-first preference holds only in the helper
`_get_tokenizer_class_from_config`, which `from_pretrained` does not call
and which, for a config containing both keys, yields the `init_class`
value. -/
theorem C2_amended_config_keys (env : Env) (id a b : String)
    (cfg : List (String × String)) (uf : Bool) (c : Option PretrainedConfig)
    (hb : memStr id (allTokenizerNames env.initConfigMapping) = false)
    (hf : env.resolveFile id = some cfg)
    (h1 : dictGet "init_class" cfg = some a)
    (h2 : dictGet "tokenizer_class" cfg = some b) :
    declared_class_from_config cfg = some a ∧
    AutoTokenizer.from_pretrained env id uf none c =
      resolve_declared_class env b uf := by
  constructor
  · simp [declared_class_from_config, h1]
  · simp [AutoTokenizer.from_pretrained, hb, resolve_after_builtin, hf,
      get_tokenizer_config, h2]

/-- Witness for the amended C2 at the concrete two-key config. -/
theorem C2_amended_config_keys_witness :
    declared_class_from_config c2Config = some "ErnieTokenizer" ∧
    AutoTokenizer.from_pretrained c2Env "my-community-model" false none none =
      resolve_declared_class c2Env "BertTokenizer" false :=
  C2_amended_config_keys c2Env "my-community-model" "ErnieTokenizer"
    "BertTokenizer" c2Config false none (by decide) rfl rfl rfl

/-- C3: when no tokenizer class is declared (neither in the saved config
nor on the model configuration) and the architecture-family key derives
from the configuration type, `from_pretrained` follows the selection
policy: the accelerated class when it is registered and (`use_fast` or no
reference class is registered); otherwise a single registered reference
class directly, or the first candidate of a tuple of reference classes
(the choice being printed); otherwise the missing-optional-dependency
error. -/
theorem C3_model_config_selection_policy (env : Env) (id mt : String)
    (uf : Bool) (c : PretrainedConfig)
    (hb : memStr id (allTokenizerNames env.initConfigMapping) = false)
    (hcfg : dictGet "tokenizer_class"
      (get_tokenizer_config (env.resolveFile id)) = none)
    (hc : c.tokenizer_class = none)
    (hmt : env.configToModelType c.typeName = some mt) :
    (∀ py f, env.tokenizerMapping c.typeName = .pair py (some f) →
        (uf || py.isNone) = true →
        AutoTokenizer.from_pretrained env id uf none (some c) = .ok f) ∧
    (∀ cls fa, env.tokenizerMapping c.typeName = .pair (some (.one cls)) fa →
        (fa = none ∨ uf = false) →
        AutoTokenizer.from_pretrained env id uf none (some c) = .ok cls) ∧
    (∀ c0 cs fa,
        env.tokenizerMapping c.typeName = .pair (some (.many c0 cs)) fa →
        (fa = none ∨ uf = false) →
        AutoTokenizer.from_pretrained env id uf none (some c) = .okFirst c0) ∧
    (env.tokenizerMapping c.typeName = .pair none none →
        AutoTokenizer.from_pretrained env id uf none (some c) =
          .errMissingDependency) ∧
    (∀ cls, env.tokenizerMapping c.typeName = .single cls →
        AutoTokenizer.from_pretrained env id uf none (some c) = .ok cls) := by
  have hR : AutoTokenizer.from_pretrained env id uf none (some c) =
      select_mapped_tokenizer (env.tokenizerMapping c.typeName) uf := by
    simp [AutoTokenizer.from_pretrained, hb, resolve_after_builtin, hcfg,
      hc, hmt]
  refine ⟨?_, ?_, ?_, ?_, ?_⟩
  · intro py f hM hcond
    rw [hR, hM]
    simp [select_mapped_tokenizer, hcond]
  · intro cls fa hM hcond
    rw [hR, hM]
    cases fa with
    | none => simp [select_mapped_tokenizer, pick_reference_tokenizer]
    | some f =>
      rcases hcond with h | h
      · exact absurd h (by simp)
      · simp [select_mapped_tokenizer, h, pick_reference_tokenizer]
  · intro c0 cs fa hM hcond
    rw [hR, hM]
    cases fa with
    | none => simp [select_mapped_tokenizer, pick_reference_tokenizer]
    | some f =>
      rcases hcond with h | h
      · exact absurd h (by simp)
      · simp [select_mapped_tokenizer, h, pick_reference_tokenizer]
  · intro hM
    rw [hR, hM]
    simp [select_mapped_tokenizer, pick_reference_tokenizer]
  · intro cls hM
    rw [hR, hM]
    simp [select_mapped_tokenizer, pick_reference_tokenizer]

/-- Environment whose model-configuration fallback is exercised: the Bert
configuration type maps to the bert family, carrying a (reference, fast)
pair. -/
def c3Env : Env :=
  { demoEnv with
    initConfigMapping := []
    configToModelType := fun n => if n = "BertConfig" then some "bert" else none
    tokenizerMapping := fun _ =>
      .pair (some (.one "BertTokenizer")) (some "BertTokenizerFast") }

/-- Witness for C3: with `use_fast` the accelerated class is selected out
of the registered pair. -/
theorem C3_model_config_selection_policy_witness :
    AutoTokenizer.from_pretrained c3Env "some-model" true none
      (some ⟨"BertConfig", none⟩) = .ok "BertTokenizerFast" :=
  (C3_model_config_selection_policy c3Env "some-model" "bert" true
      ⟨"BertConfig", none⟩ (by decide) (by decide) rfl (by decide)).1
    (some (.one "BertTokenizer")) "BertTokenizerFast" rfl rfl

/-- C4: with `use_fast` and a declared class name not ending in the
accelerated suffix, resolution first attempts the `Fast`-suffixed name; on
failure it falls back to the declared name rather than failing; only when
both lookups fail does it raise the unresolved-class error, naming the
declared name — the candidate attempted last. -/
theorem C4_fast_lookup_with_fallback (env : Env) (id ctc : String)
    (cfg : List (String × String)) (c : Option PretrainedConfig)
    (hb : memStr id (allTokenizerNames env.initConfigMapping) = false)
    (hf : env.resolveFile id = some cfg)
    (hc : dictGet "tokenizer_class" cfg = some ctc)
    (hend : strEndsWith ctc "Fast" = false) :
    AutoTokenizer.from_pretrained env id true none c =
      resolve_declared_class env ctc true ∧
    (∀ cls, tokenizer_class_from_name env.table env.extraNames env.mainModule
        (ctc ++ "Fast") = some cls →
        resolve_declared_class env ctc true = .ok cls) ∧
    (tokenizer_class_from_name env.table env.extraNames env.mainModule
        (ctc ++ "Fast") = none →
      (∀ cls, tokenizer_class_from_name env.table env.extraNames
          env.mainModule ctc = some cls →
          resolve_declared_class env ctc true = .ok cls) ∧
      (tokenizer_class_from_name env.table env.extraNames env.mainModule
          ctc = none →
          resolve_declared_class env ctc true = .errUnresolvedClass ctc)) := by
  refine ⟨?_, ?_, ?_⟩
  · simp [AutoTokenizer.from_pretrained, hb, resolve_after_builtin, hf,
      get_tokenizer_config, hc]
  · intro cls hsome
    simp [resolve_declared_class, hend, hsome]
  · intro hnone
    constructor
    · intro cls hsome
      simp [resolve_declared_class, hend, hnone, hsome]
    · intro hnone2
      simp [resolve_declared_class, hend, hnone, hnone2]

/-- Environment whose saved config declares `ErnieTokenizer`, a class with
no registered accelerated counterpart. -/
def c4Env : Env :=
  { demoEnv with
    initConfigMapping := []
    resolveFile := fun _ => some [("tokenizer_class", "ErnieTokenizer")] }

/-- Witness for C4: `ErnieTokenizerFast` is not registered, so with
`use_fast` the resolution falls back to the declared reference class. -/
theorem C4_fast_lookup_with_fallback_witness :
    AutoTokenizer.from_pretrained c4Env "m" true none none =
      resolve_declared_class c4Env "ErnieTokenizer" true ∧
    resolve_declared_class c4Env "ErnieTokenizer" true =
      .ok "ErnieTokenizer" := by
  have h := C4_fast_lookup_with_fallback c4Env "m" "ErnieTokenizer"
    [("tokenizer_class", "ErnieTokenizer")] none (by decide) rfl (by decide)
    (by decide)
  exact ⟨h.1, (h.2.2 (by decide)).1 "ErnieTokenizer" (by decide)⟩

/-- C5: a declared class name is resolved literally even with
`use_fast = false`: when the name (for example an accelerated variant such
as `BertTokenizerFast`) is registered, resolution yields exactly that
class — `use_fast = false` neither suppresses nor substitutes it. -/
theorem C5_literal_declared_name_precedence (env : Env) (id ctc cls : String)
    (cfg : List (String × String)) (c : Option PretrainedConfig)
    (hb : memStr id (allTokenizerNames env.initConfigMapping) = false)
    (hf : env.resolveFile id = some cfg)
    (hc : dictGet "tokenizer_class" cfg = some ctc)
    (hres : tokenizer_class_from_name env.table env.extraNames env.mainModule
      ctc = some cls) :
    AutoTokenizer.from_pretrained env id false none c = .ok cls := by
  simp [AutoTokenizer.from_pretrained, hb, resolve_after_builtin, hf,
    get_tokenizer_config, hc, resolve_declared_class, hres]

/-- Environment whose saved config declares the accelerated class
literally. -/
def c5Env : Env :=
  { demoEnv with
    initConfigMapping := []
    resolveFile := fun _ => some [("tokenizer_class", "BertTokenizerFast")] }

/-- Witness for C5: the literally declared `BertTokenizerFast` resolves
with `use_fast = false`. -/
theorem C5_literal_declared_name_precedence_witness :
    AutoTokenizer.from_pretrained c5Env "m" false none none =
      .ok "BertTokenizerFast" :=
  C5_literal_declared_name_precedence c5Env "m" "BertTokenizerFast"
    "BertTokenizerFast" [("tokenizer_class", "BertTokenizerFast")] none
    (by decide) rfl (by decide) (by decide)

/-- C8: an absent tokenizer-config file yields an empty mapping, not an
error, and resolution proceeds to the next strategy — here the model
configuration's declared tokenizer class. -/
theorem C8_missing_config_file_is_empty_mapping (env : Env) (id ctc : String)
    (uf : Bool) (c : PretrainedConfig)
    (hb : memStr id (allTokenizerNames env.initConfigMapping) = false)
    (hf : env.resolveFile id = none)
    (hc : c.tokenizer_class = some ctc) :
    get_tokenizer_config none = [] ∧
    AutoTokenizer.from_pretrained env id uf none (some c) =
      resolve_declared_class env ctc uf := by
  refine ⟨rfl, ?_⟩
  simp [AutoTokenizer.from_pretrained, hb, resolve_after_builtin, hf,
    get_tokenizer_config, dictGet, hc]

/-- Environment with no config file available and no built-in names. -/
def c8Env : Env := { demoEnv with initConfigMapping := [] }

/-- Witness for C8: the missing file leads to the model configuration's
declared class. -/
theorem C8_missing_config_file_is_empty_mapping_witness :
    get_tokenizer_config none = [] ∧
    AutoTokenizer.from_pretrained c8Env "m" false none
      (some ⟨"X", some "ErnieTokenizer"⟩) =
      resolve_declared_class c8Env "ErnieTokenizer" false :=
  C8_missing_config_file_is_empty_mapping c8Env "m" "ErnieTokenizer" false
    ⟨"X", some "ErnieTokenizer"⟩ (by decide) rfl rfl

/-- C9: an identifier that is not a built-in name, has no declared
tokenizer class in the saved config or on the model configuration, and
whose configuration type yields no architecture-family key raises the
terminal cannot-load error; the message contains the original identifier
and enumerates the three accepted identifier forms. -/
theorem C9_ambiguous_input_error (env : Env) (id : String) (uf : Bool)
    (c : PretrainedConfig)
    (hb : memStr id (allTokenizerNames env.initConfigMapping) = false)
    (hcfg : dictGet "tokenizer_class"
      (get_tokenizer_config (env.resolveFile id)) = none)
    (hc : c.tokenizer_class = none)
    (hmt : env.configToModelType c.typeName = none) :
    AutoTokenizer.from_pretrained env id uf none (some c) =
      .errCannotLoad id ∧
    (∃ s t, (cannotLoadMessage id).data = s ++ id.data ++ t) ∧
    (∃ s t, (cannotLoadMessage id).data = s ++ cannotLoadLine1.data ++ t) ∧
    (∃ s t, (cannotLoadMessage id).data = s ++ cannotLoadLine2.data ++ t) ∧
    (∃ s t, (cannotLoadMessage id).data = s ++ cannotLoadLine3.data ++ t) := by
  refine ⟨?_, ?_, ?_, ?_, ?_⟩
  · simp [AutoTokenizer.from_pretrained, hb, resolve_after_builtin, hcfg,
      hc, hmt]
  · refine ⟨"Can\x27t load tokenizer for \x27".data,
      ("\x27.\n" ++ "Please make sure that \x27" ++ id ++ "\x27 is:\n" ++
        cannotLoadLine1 ++ cannotLoadLine2 ++ cannotLoadLine3).data, ?_⟩
    simp [cannotLoadMessage, String.data_append]
  · refine ⟨("Can\x27t load tokenizer for \x27" ++ id ++ "\x27.\n" ++
      "Please make sure that \x27" ++ id ++ "\x27 is:\n").data,
      (cannotLoadLine2 ++ cannotLoadLine3).data, ?_⟩
    simp [cannotLoadMessage, String.data_append]
  · refine ⟨("Can\x27t load tokenizer for \x27" ++ id ++ "\x27.\n" ++
      "Please make sure that \x27" ++ id ++ "\x27 is:\n" ++
      cannotLoadLine1).data, cannotLoadLine3.data, ?_⟩
    simp [cannotLoadMessage, String.data_append]
  · refine ⟨("Can\x27t load tokenizer for \x27" ++ id ++ "\x27.\n" ++
      "Please make sure that \x27" ++ id ++ "\x27 is:\n" ++
      cannotLoadLine1 ++ cannotLoadLine2).data, ([] : List Char), ?_⟩
    simp [cannotLoadMessage, String.data_append]

/-- Environment for an identifier resolvable by no strategy. -/
def c9Env : Env := { demoEnv with initConfigMapping := [] }

/-- Witness for C9 at an unknown identifier. -/
theorem C9_ambiguous_input_error_witness :
    AutoTokenizer.from_pretrained c9Env "mystery-model" false none
      (some ⟨"UnknownConfig", none⟩) = .errCannotLoad "mystery-model" :=
  (C9_ambiguous_input_error c9Env "mystery-model" false
    ⟨"UnknownConfig", none⟩ (by decide) rfl rfl rfl).1

/-- C6: when an entry for the config class already exists in the
extra-content registry, calling `register` supplying only one of the two
tokenizer slots carries the other slot over from the existing entry into
the merged pair, so the previously registered class is preserved rather
than reset to empty. -/
theorem C6_register_partial_update
    (extra : List (String × (Option RegClass × Option RegClass)))
    (cc : String) (es ef : Option RegClass)
    (hexist : dictGet cc extra = some (es, ef)) :
    (∀ f : RegClass, f.isSlowSubclass = false →
        AutoTokenizer.register extra cc none (some f) = .ok (es, some f)) ∧
    (∀ s : RegClass, s.isFastSubclass = false →
        AutoTokenizer.register extra cc (some s) none = .ok (some s, ef)) := by
  constructor
  · intro f hf
    simp [AutoTokenizer.register, hf, hexist]
  · intro s hs
    simp [AutoTokenizer.register, hs, hexist]

/-- Reference-implementation Bert tokenizer class, as a registration
argument. -/
def slowBertReg : RegClass := ⟨"BertTokenizer", false, true, none⟩

/-- Accelerated Bert tokenizer class, as a registration argument. -/
def fastBertReg : RegClass :=
  ⟨"BertTokenizerFast", true, false, some "BertTokenizer"⟩

/-- Witness for C6: registering only the accelerated class for a config
class already holding a reference class preserves that reference class. -/
theorem C6_register_partial_update_witness :
    AutoTokenizer.register [("BertConfig", (some slowBertReg, none))]
      "BertConfig" none (some fastBertReg) =
      .ok (some slowBertReg, some fastBertReg) :=
  (C6_register_partial_update [("BertConfig", (some slowBertReg, none))]
    "BertConfig" (some slowBertReg) none (by decide)).1 fastBertReg
    (by decide)

/-- C7: `register` raises a registration-conflict error when the reference
slot is supplied with a class tagged as an accelerated implementation, or
the accelerated slot with a class tagged as a reference implementation;
the check reads only the capability tags — the class names are universally
quantified — and `register` also requires at least one slot to be
supplied. -/
theorem C7_register_capability_conflicts :
    (∀ (extra : List (String × (Option RegClass × Option RegClass)))
        (cc : String) (s : RegClass) (fo : Option RegClass),
        s.isFastSubclass = true →
        AutoTokenizer.register extra cc (some s) fo =
          .error .fastInSlowSlot) ∧
    (∀ (extra : List (String × (Option RegClass × Option RegClass)))
        (cc : String) (so : Option RegClass) (f : RegClass),
        (∀ s, so = some s → s.isFastSubclass = false) →
        f.isSlowSubclass = true →
        AutoTokenizer.register extra cc so (some f) =
          .error .slowInFastSlot) ∧
    (∀ (extra : List (String × (Option RegClass × Option RegClass)))
        (cc : String),
        AutoTokenizer.register extra cc none none = .error .needOneClass) := by
  refine ⟨?_, ?_, ?_⟩
  · intro extra cc s fo hs
    simp [AutoTokenizer.register, hs]
  · intro extra cc so f hso hf
    cases so with
    | none => simp [AutoTokenizer.register, hf]
    | some s => simp [AutoTokenizer.register, hso s rfl, hf]
  · intro extra cc
    simp [AutoTokenizer.register]

/-- Witness for C7 at concrete classes: a fast-tagged class in the
reference slot, a reference-tagged class in the accelerated slot, and no
class at all. -/
theorem C7_register_capability_conflicts_witness :
    AutoTokenizer.register [] "Cfg" (some fastBertReg) none =
      .error .fastInSlowSlot ∧
    AutoTokenizer.register [] "Cfg" none (some slowBertReg) =
      .error .slowInFastSlot ∧
    AutoTokenizer.register [] "Cfg" none none = .error .needOneClass :=
  ⟨C7_register_capability_conflicts.1 [] "Cfg" fastBertReg none (by decide),
   C7_register_capability_conflicts.2.1 [] "Cfg" none slowBertReg
     (fun s h => nomatch h) (by decide),
   C7_register_capability_conflicts.2.2 [] "Cfg"⟩
